import Mathlib

/-
Verification development for the 21-2d-physics repository: a shallow
embedding of the configuration constants (lib/matter-config.ts), the shape
factory (lib/shape-factory.ts), the engine lifecycle hook (hooks/use-matter.ts)
and the canvas component (components/physics-canvas.tsx), together with
theorems settling the frozen claims about them.

Math.random() is modelled as an explicit stream of rational draws, one draw
per call site in source order; each draw is assumed to lie in [0, 1) exactly
as the host guarantees.  Real-valued trigonometry (Math.cos, Math.sin,
Math.PI) is embedded with Real.cos, Real.sin and Real.pi.
-/

namespace Phys

/-- Stream of Math.random() draws, consumed in call order. -/
def Rnd : Type := Nat → ℚ

/-! ## lib/matter-config.ts -/

/-- Shape of the object literal passed to Engine.create. -/
structure PhysicsConfig where
  gravity : ℚ × ℚ
  enableSleeping : Bool
  positionIterations : Nat
  velocityIterations : Nat
  deriving Repr, DecidableEq

/-- PHYSICS_CONFIG from lib/matter-config.ts: gravity (0,1), sleeping on,
6 position iterations, 4 velocity iterations. -/
def PHYSICS_CONFIG : PhysicsConfig :=
  { gravity := (0, 1)
    enableSleeping := true
    positionIterations := 6
    velocityIterations := 4 }

/-- SLEEPING_CONFIG.sleepThreshold from lib/matter-config.ts. -/
def sleepThreshold : Nat := 60

/-- Per-body physical coefficients record (the BODY_DEFAULTS shape). -/
structure BodyDefaults where
  restitution : ℚ
  friction : ℚ
  frictionAir : ℚ
  density : ℚ
  deriving Repr, DecidableEq

/-- BODY_DEFAULTS from lib/matter-config.ts. -/
def BODY_DEFAULTS : BodyDefaults :=
  { restitution := 4/5
    friction := 1/10
    frictionAir := 1/100
    density := 1/1000 }

/-- COLORS neubrutalist palette from lib/matter-config.ts. -/
def COLORS : List String :=
  ["#FF00FF", "#00FF00", "#FFFF00", "#00FFFF",
   "#FF6B00", "#FF0080", "#80FF00", "#0080FF"]

/-- CULLING_CONFIG.bufferZone from lib/matter-config.ts. -/
def bufferZone : ℚ := 500

/-! ## lib/shape-factory.ts : data model of factory outputs -/

/-- Shape payload of a created body: the arguments handed to the
Bodies.circle / Bodies.rectangle / Bodies.polygon / Bodies.fromVertices
constructors. -/
inductive Shape where
  | circle (radius : ℚ)
  | rectangle (width height : ℚ)
  | polygon (sides : Nat) (radius : ℚ)
  | fromVertices (verts : List (ℝ × ℝ))

/-- A created Matter body, restricted to the fields this repository reads or
writes: shape payload, position, angle, velocity, the four physical
coefficients, the render fill and the static flag. -/
structure Body where
  shape : Shape
  position : ℚ × ℚ
  angle : ℝ := 0
  velocity : ℚ × ℚ := (0, 0)
  restitution : ℚ := BODY_DEFAULTS.restitution
  friction : ℚ := BODY_DEFAULTS.friction
  frictionAir : ℚ := BODY_DEFAULTS.frictionAir
  density : ℚ := BODY_DEFAULTS.density
  fillStyle : String := ""
  isStatic : Bool := false

/-- getRandomColor from lib/shape-factory.ts:
COLORS[Math.floor(Math.random() * COLORS.length)]. -/
def getRandomColor (u : ℚ) : String :=
  COLORS.getD (Int.toNat ⌊u * (COLORS.length : ℚ)⌋) ""

/-- randomInRange from lib/shape-factory.ts:
Math.random() * (max - min) + min. -/
def randomInRange (u min max : ℚ) : ℚ :=
  u * (max - min) + min

/-- createCircle: radius drawn in [20,50), default coefficients, random
palette color.  Draw order: radius, then the render fill. -/
def createCircle (rnd : Rnd) (x y : ℚ) : Body :=
  let radius := randomInRange (rnd 0) 20 50
  { shape := Shape.circle radius
    position := (x, y)
    fillStyle := getRandomColor (rnd 1) }

/-- createRectangle: width and height drawn in [30,80), a random initial
angle in [0, 2 pi), default coefficients, random palette color.  Draw
order: width, height, angle, fill. -/
noncomputable def createRectangle (rnd : Rnd) (x y : ℚ) : Body :=
  let width := randomInRange (rnd 0) 30 80
  let height := randomInRange (rnd 1) 30 80
  { shape := Shape.rectangle width height
    position := (x, y)
    angle := (rnd 2 : ℝ) * Real.pi * 2
    fillStyle := getRandomColor (rnd 3) }

/-- createPolygon: radius drawn in [25,45), random initial angle, default
coefficients, random palette color.  Draw order: radius, angle, fill. -/
noncomputable def createPolygon (rnd : Rnd) (x y : ℚ) (sides : Nat) : Body :=
  let radius := randomInRange (rnd 0) 25 45
  { shape := Shape.polygon sides radius
    position := (x, y)
    angle := (rnd 1 : ℝ) * Real.pi * 2
    fillStyle := getRandomColor (rnd 2) }

/-- createTriangle delegates to createPolygon with 3 sides. -/
noncomputable def createTriangle (rnd : Rnd) (x y : ℚ) : Body :=
  createPolygon rnd x y 3

/-- createPentagon delegates to createPolygon with 5 sides. -/
noncomputable def createPentagon (rnd : Rnd) (x y : ℚ) : Body :=
  createPolygon rnd x y 5

/-- createHexagon delegates to createPolygon with 6 sides. -/
noncomputable def createHexagon (rnd : Rnd) (x y : ℚ) : Body :=
  createPolygon rnd x y 6

/-- createOctagon delegates to createPolygon with 8 sides. -/
noncomputable def createOctagon (rnd : Rnd) (x y : ℚ) : Body :=
  createPolygon rnd x y 8

/-- Loop body of createStar at index i: radius alternating between the
outer radius (even index) and innerRadius = outerRadius * 0.4 (odd index),
angle i * angleStep - pi/2 with angleStep = 2 pi / (points * 2), vertex
(cos(angle) * radius, sin(angle) * radius). -/
noncomputable def starVertexAt (points : Nat) (outerRadius : ℚ) (i : Nat) : ℝ × ℝ :=
  let radius : ℚ := if i % 2 = 0 then outerRadius else outerRadius * (2/5)
  let angle : ℝ := (i : ℝ) * (Real.pi * 2 / ((points : ℝ) * 2)) - Real.pi / 2
  (Real.cos angle * (radius : ℝ), Real.sin angle * (radius : ℝ))

/-- Vertex loop of createStar: 2 * points vertices from the loop body. -/
noncomputable def starVertices (points : Nat) (outerRadius : ℚ) : List (ℝ × ℝ) :=
  (List.range (points * 2)).map (starVertexAt points outerRadius)

/-- createStar: outer radius drawn in [30,50), star vertex ring handed to
Bodies.fromVertices, default coefficients, random palette color.  Draw
order: outer radius, then the render fill. -/
noncomputable def createStar (rnd : Rnd) (x y : ℚ) (points : Nat) : Body :=
  let outerRadius := randomInRange (rnd 0) 30 50
  { shape := Shape.fromVertices (starVertices points outerRadius)
    position := (x, y)
    fillStyle := getRandomColor (rnd 1) }

/-- create5PointStar delegates to createStar with 5 points. -/
noncomputable def create5PointStar (rnd : Rnd) (x y : ℚ) : Body :=
  createStar rnd x y 5

/-- create6PointStar delegates to createStar with 6 points. -/
noncomputable def create6PointStar (rnd : Rnd) (x y : ℚ) : Body :=
  createStar rnd x y 6

/-- Vertex loop of createIrregularPolygon: vertexCount vertices at angles
i * (2 pi / vertexCount), each at its own radius. -/
noncomputable def irregularVertices (vertexCount : Nat) (radii : Nat → ℚ) :
    List (ℝ × ℝ) :=
  (List.range vertexCount).map (fun i =>
    let r : ℚ := radii i
    let angle : ℝ := (i : ℝ) * (Real.pi * 2 / (vertexCount : ℝ))
    (Real.cos angle * (r : ℝ), Real.sin angle * (r : ℝ)))

/-- Vertex count of createIrregularPolygon:
Math.floor(randomInRange(4, 8)). -/
def irregularVertexCount (u : ℚ) : Nat :=
  Int.toNat ⌊randomInRange u 4 8⌋

/-- Per-vertex radius of createIrregularPolygon:
baseRadius * randomInRange(0.7, 1.3), one fresh draw per vertex. -/
def irregularRadius (baseRadius : ℚ) (u : ℚ) : ℚ :=
  baseRadius * randomInRange u (7/10) (13/10)

/-- createIrregularPolygon: vertex count drawn from [4,8), base radius from
[25,45), each vertex radius independently jittered, ring handed to
Bodies.fromVertices.  Draw order: vertex count, base radius, one jitter per
vertex, then the render fill. -/
noncomputable def createIrregularPolygon (rnd : Rnd) (x y : ℚ) : Body :=
  let vertexCount := irregularVertexCount (rnd 0)
  let baseRadius := randomInRange (rnd 1) 25 45
  { shape := Shape.fromVertices
      (irregularVertices vertexCount (fun i => irregularRadius baseRadius (rnd (2 + i))))
    position := (x, y)
    fillStyle := getRandomColor (rnd (2 + vertexCount)) }

/-- Factory signature from lib/shape-factory.ts, with the Math.random
stream made explicit. -/
def ShapeFactory : Type := Rnd → ℚ → ℚ → Body

/-- SHAPE_FACTORIES registry, in source order. -/
noncomputable def SHAPE_FACTORIES : List ShapeFactory :=
  [createCircle, createRectangle, createTriangle, createPentagon,
   createHexagon, createOctagon, create5PointStar, create6PointStar,
   createIrregularPolygon]

/-- createRandomShape: picks
SHAPE_FACTORIES[Math.floor(Math.random() * SHAPE_FACTORIES.length)] and
applies it; the factory consumes the remaining draws. -/
noncomputable def createRandomShape (rnd : Rnd) (x y : ℚ) : Body :=
  let factory :=
    SHAPE_FACTORIES.getD (Int.toNat ⌊rnd 0 * (SHAPE_FACTORIES.length : ℚ)⌋) createCircle
  factory (fun n => rnd (n + 1)) x y

/-! ## hooks/use-matter.ts -/

/-- Argument object of the Engine.create call in useMatter: a literal
gravity of (0, 0.5) together with the sleeping flag and the two iteration
counts read from PHYSICS_CONFIG. -/
def engineCreateConfig : PhysicsConfig :=
  { gravity := (0, 1/2)
    enableSleeping := PHYSICS_CONFIG.enableSleeping
    positionIterations := PHYSICS_CONFIG.positionIterations
    velocityIterations := PHYSICS_CONFIG.velocityIterations }

/-- Outcome of the useMatter initialization effect. -/
structure InitOutcome where
  runnerStarted : Bool
  raisedConfigurationError : Bool
  deriving Repr, DecidableEq

/-- Initialization sequence of useMatter: bail out while either canvas
dimension is zero, otherwise Engine.create followed unconditionally by
Runner.create and Runner.run.  The source contains no validation of any
physical coefficient and no ConfigurationError (or any error) is ever
raised on any code path, so the outcome ignores both configuration
records. -/
def useMatterInit (_physics : PhysicsConfig) (_defaults : BodyDefaults)
    (width height : ℚ) : InitOutcome :=
  if width = 0 ∨ height = 0 then
    { runnerStarted := false, raisedConfigurationError := false }
  else
    { runnerStarted := true, raisedConfigurationError := false }

/-- Pointer gesture against the canvas: the body found by the
MouseConstraint hit test at press (if any), and whether the pointer moved
between press and release. -/
structure Gesture where
  hit : Option Body
  moved : Bool

/-- MouseConstraint drag attachment (hooks/use-matter.ts, Matter.js
MouseConstraint semantics): the drag constraint is attached at press
whenever the hit test finds a body, with no condition on the gesture
type. -/
def dragConstraintAttached (g : Gesture) : Bool :=
  g.hit.isSome

/-- handleMouseClick from hooks/use-matter.ts: the DOM click event fires at
release of every press-and-release on the canvas, moved or not;
mouseConstraint.body still holds the body grabbed at press (it is cleared
only by the next engine tick after release), and the upward force
(0, -0.05) is applied when that body exists and is not static. -/
def clickImpulseApplied (g : Gesture) : Bool :=
  match g.hit with
  | some b => !b.isStatic
  | none => false

/-- Per-body view used by the culling check: the static flag and the y
coordinate of the position. -/
structure CullBody where
  isStatic : Bool
  posY : ℚ
  deriving Repr, DecidableEq

/-- World state seen by the afterUpdate handler: the body list and the
frameCount counter captured by the closure. -/
structure CullWorld where
  bodies : List CullBody
  frameCount : Nat
  deriving Repr, DecidableEq

/-- cullOffscreenBodies from hooks/use-matter.ts: collect every body with
isStatic false and position.y above height + CULLING_CONFIG.bufferZone,
then remove exactly those from the world. -/
def cullOffscreenBodies (height : ℚ) (bodies : List CullBody) : List CullBody :=
  bodies.filter (fun b => !(!b.isStatic && decide (b.posY > height + bufferZone)))

/-- afterUpdate handler from hooks/use-matter.ts, run once per engine tick:
increment frameCount; once it reaches 60, reset it to 0 without touching
the body list, because the cullOffscreenBodies() call inside the branch is
commented out in the source (marked TEMPORARILY DISABLED for debugging). -/
def afterUpdate (_height : ℚ) (s : CullWorld) : CullWorld :=
  if 60 ≤ s.frameCount + 1 then
    { s with frameCount := 0 }
  else
    { s with frameCount := s.frameCount + 1 }

/-! ## components/physics-canvas.tsx : collision flash -/

/-- Flash color used by handleCollision. -/
def flashColor : String := "#FFFFFF"

/-- Per-body action of handleCollision on one member of a collision pair:
bodies with isStatic true are filtered out untouched; for the others the
render fill is set to the flash color (the previous fill having been saved
for the delayed restore). -/
def flashIfDynamic (b : Body) : Body :=
  if b.isStatic then b else { b with fillStyle := flashColor }

/-- handleCollision action on one collision pair. -/
def handleCollisionPair (bodyA bodyB : Body) : Body × Body :=
  (flashIfDynamic bodyA, flashIfDynamic bodyB)

/-- Timeline state of the fill color of one body under the flash feature:
the current fill, the FIFO queue of scheduled setTimeout restores (fire
time and saved color), plus two observation logs: the fill immediately
before each flash, and the fill immediately after each fired restore. -/
structure FlashRun where
  color : String
  pending : List (Nat × String)
  flashLog : List String
  restoreLog : List String

/-- Fire every scheduled restore that is due at the given instant, oldest
first: each one writes its saved color to the fill, and the fill right
after it fires (that same saved color) is appended to the restore log. -/
def fireDue (now : Nat) : List (Nat × String) → String → List String →
    String × List (Nat × String) × List String
  | [], color, rlog => (color, [], rlog)
  | (t, c) :: rest, color, rlog =>
    if t ≤ now then fireDue now rest c (rlog ++ [c])
    else (color, (t, c) :: rest, rlog)

/-- One collision flash at the given instant: after the due restores have
fired, handleCollision saves the current fill, overwrites the fill with the
flash color, and schedules a restore of the saved fill 100 ms later. -/
def flashAt (now : Nat) (s : FlashRun) : FlashRun :=
  let fired := fireDue now s.pending s.color s.restoreLog
  { color := flashColor
    pending := fired.2.1 ++ [(now + 100, fired.1)]
    flashLog := s.flashLog ++ [fired.1]
    restoreLog := fired.2.2 }

/-- Fire every remaining scheduled restore, oldest first. -/
def fireAll : List (Nat × String) → String → List String → String × List String
  | [], color, rlog => (color, rlog)
  | (_, c) :: rest, _, rlog => fireAll rest c (rlog ++ [c])

/-- Full timeline of a body with initial fill c0 under a schedule of flash
instants: run every flash in order, then let every outstanding restore
fire. -/
def runSchedule (c0 : String) (ts : List Nat) : FlashRun :=
  let s := ts.foldl (fun s t => flashAt t s) ⟨c0, [], [], []⟩
  let finished := fireAll s.pending s.color s.restoreLog
  ⟨finished.1, [], s.flashLog, finished.2⟩

/-! ## components/physics-canvas.tsx : render transform -/

/-- Rotation of a plane point about the origin, the effect of
ctx.rotate. -/
noncomputable def rot (theta : ℝ) (v : ℝ × ℝ) : ℝ × ℝ :=
  (Real.cos theta * v.1 - Real.sin theta * v.2,
   Real.sin theta * v.1 + Real.cos theta * v.2)

/-- World-space vertices of a Matter body (Matter.js semantics:
body.vertices is kept in world coordinates, the local ring rotated by the
body angle and translated to the body position). -/
noncomputable def worldVertices (p : ℝ × ℝ) (theta : ℝ)
    (locals : List (ℝ × ℝ)) : List (ℝ × ℝ) :=
  locals.map (fun v => (p.1 + (rot theta v).1, p.2 + (rot theta v).2))

/-- Screen points produced by the polygon branch of the render loop: under
the ctx.translate(body.position) and ctx.rotate(body.angle) transform, the
path visits vertices[i] - body.position, so each world vertex v lands on
screen at position + rot(angle)(v - position). -/
noncomputable def renderedPolygonPoints (p : ℝ × ℝ) (theta : ℝ)
    (verts : List (ℝ × ℝ)) : List (ℝ × ℝ) :=
  verts.map (fun v =>
    (p.1 + (rot theta (v.1 - p.1, v.2 - p.2)).1,
     p.2 + (rot theta (v.1 - p.1, v.2 - p.2)).2))

/-! ## components/physics-canvas.tsx : spawn effect -/

/-- A body as spawned by one iteration of the spawn loop: the shape from
createRandomShape at the chosen position, with the random initial velocity
installed by Matter.Body.setVelocity. -/
noncomputable def spawnOne (rndShape : Rnd) (uX uVX uVY : ℚ) (width : ℚ) : Body :=
  let x := uX * width
  let y : ℚ := -50
  let shape := createRandomShape rndShape x y
  { shape with velocity := ((uVX - 1/2) * 2, uVY * 2) }

/-- Spawn effect body of components/physics-canvas.tsx for one spawn
trigger: nothing happens while either canvas dimension is zero; otherwise
count = Math.floor(Math.random() * 21) + 30 bodies are created, each at a
random x across the screen width and y = -50, and each is passed to
addBody.  Each Math.random call site draws independently: uCount for the
count, and per iteration i the draw families xDraw, vxDraw, vyDraw and the
stream shapeDraw i. -/
noncomputable def spawnBatch (uCount : ℚ) (xDraw vxDraw vyDraw : Nat → ℚ)
    (shapeDraw : Nat → Rnd) (width height : ℚ) : List Body :=
  if width = 0 ∨ height = 0 then []
  else
    let count := Int.toNat ⌊uCount * 21⌋ + 30
    (List.range count).map (fun i =>
      spawnOne (shapeDraw i) (xDraw i) (vxDraw i) (vyDraw i) width)

/-- Euclidean length of a plane point, used to express the radius of a
generated vertex. -/
noncomputable def vlen (v : ℝ × ℝ) : ℝ :=
  Real.sqrt (v.1 ^ 2 + v.2 ^ 2)

/-! ## Sample inputs used by witnesses and counterexamples -/

/-- Constant zero stream of draws; 0 is a legal Math.random value. -/
def zeroDraws : Nat → ℚ := fun _ => 0

/-- Constant zero family of draw streams. -/
def zeroRndFamily : Nat → Rnd := fun _ _ => 0

/-- Constant one-half stream of draws. -/
def halfDraws : Nat → ℚ := fun _ => 1/2

/-- A concrete dynamic body, as a spawned circle would be. -/
noncomputable def sampleDynamicBody : Body :=
  { shape := Shape.circle 30
    position := (100, 100)
    fillStyle := "#FF00FF" }

/-- A concrete static body, as the floor wall is. -/
noncomputable def sampleStaticBody : Body :=
  { shape := Shape.rectangle 800 50
    position := (400, 575)
    fillStyle := ""
    isStatic := true }

/-- A BODY_DEFAULTS-shaped record with a restitution outside [0,1]. -/
def outOfRangeDefaults : BodyDefaults :=
  { restitution := 3/2
    friction := 1/10
    frictionAir := 1/100
    density := 1/1000 }

/-! ## Helper lemmas -/

/-- One tick of the afterUpdate handler never changes the body list. -/
theorem afterUpdate_bodies (height : ℚ) (s : CullWorld) :
    (afterUpdate height s).bodies = s.bodies := by
  unfold afterUpdate
  split <;> rfl

/-- Every registered factory places the created body at the requested
position. -/
theorem factory_position (rnd : Rnd) (x y : ℚ) :
    ∀ f ∈ SHAPE_FACTORIES, (f rnd x y).position = (x, y) := by
  intro f hf
  simp only [SHAPE_FACTORIES, List.mem_cons, List.not_mem_nil, or_false] at hf
  rcases hf with h | h | h | h | h | h | h | h | h <;> subst h <;>
    simp [createCircle, createRectangle, createTriangle, createPentagon,
      createHexagon, createOctagon, create5PointStar, create6PointStar,
      createIrregularPolygon, createPolygon, createStar]

/-- createRandomShape places the created body at the requested position,
whichever factory the draw selects. -/
theorem createRandomShape_position (rnd : Rnd) (x y : ℚ) :
    (createRandomShape rnd x y).position = (x, y) := by
  unfold createRandomShape
  by_cases h :
      Int.toNat ⌊rnd 0 * (SHAPE_FACTORIES.length : ℚ)⌋ < SHAPE_FACTORIES.length
  · rw [List.getD_eq_getElem _ _ h]
    exact factory_position (fun n => rnd (n + 1)) x y _ (List.getElem_mem h)
  · rw [List.getD_eq_default _ _ (le_of_not_lt h)]
    simp [createCircle]

/-- One spawn-loop iteration places its body at (uX * width, -50). -/
theorem spawnOne_position (rndShape : Rnd) (uX uVX uVY width : ℚ) :
    (spawnOne rndShape uX uVX uVY width).position = (uX * width, -50) := by
  unfold spawnOne
  exact createRandomShape_position rndShape (uX * width) (-50)

/-- Selection index Math.floor(u * n) stays below n for a draw in [0,1). -/
theorem toNat_floor_unit_mul_lt (u : ℚ) (n : ℕ) (hn : 0 < n)
    (h0 : 0 ≤ u) (h1 : u < 1) :
    Int.toNat ⌊u * (n : ℚ)⌋ < n := by
  have hnq : (0 : ℚ) < (n : ℚ) := Nat.cast_pos.mpr hn
  have h2 : ⌊u * (n : ℚ)⌋ < (n : ℤ) := by
    apply Int.floor_lt.mpr
    push_cast
    nlinarith
  omega

/-- The selection index Math.floor(u * n) equals i exactly when the draw u
falls in the i-th subinterval [i/n, (i+1)/n) of [0,1): the n outcomes
partition [0,1) into equal-length cells. -/
theorem toNat_floor_unit_mul_eq_iff (u : ℚ) (n i : ℕ)
    (h0 : 0 ≤ u) (h1 : u < 1) (hi : i < n) :
    Int.toNat ⌊u * (n : ℚ)⌋ = i ↔
      ((i : ℚ) / n ≤ u ∧ u < ((i : ℚ) + 1) / n) := by
  have hn : (0 : ℚ) < (n : ℚ) := Nat.cast_pos.mpr (by omega)
  have hfl0 : 0 ≤ ⌊u * (n : ℚ)⌋ := Int.floor_nonneg.mpr (by positivity)
  constructor
  · intro h
    have heq : ⌊u * (n : ℚ)⌋ = (i : ℤ) := by omega
    rw [Int.floor_eq_iff] at heq
    obtain ⟨ha, hb⟩ := heq
    push_cast at ha hb
    constructor
    · rw [div_le_iff hn]
      linarith
    · rw [lt_div_iff hn]
      linarith
  · rintro ⟨ha, hb⟩
    rw [div_le_iff hn] at ha
    rw [lt_div_iff hn] at hb
    have heq : ⌊u * (n : ℚ)⌋ = (i : ℤ) := by
      apply Int.floor_eq_iff.mpr
      constructor <;> push_cast <;> linarith
    omega

/-- Length of a generated polar vertex equals its radius. -/
theorem vlen_polar (theta : ℝ) (r : ℝ) (hr : 0 ≤ r) :
    vlen (Real.cos theta * r, Real.sin theta * r) = r := by
  unfold vlen
  have h : (Real.cos theta * r) ^ 2 + (Real.sin theta * r) ^ 2 = r ^ 2 := by
    have hcs := Real.sin_sq_add_cos_sq theta
    nlinarith [hcs]
  rw [h, Real.sqrt_sq hr]

/-- Composing two canvas rotations about the origin rotates by the sum of
the angles. -/
theorem rot_rot (a b : ℝ) (v : ℝ × ℝ) : rot a (rot b v) = rot (a + b) v := by
  unfold rot
  rw [Prod.mk.injEq]
  rw [Real.cos_add, Real.sin_add]
  constructor <;> ring

/-- Firing the due restores moves saved colors from the queue to the
restore log without losing or reordering any. -/
theorem fireDue_log (now : Nat) :
    ∀ (pending : List (Nat × String)) (color : String) (rlog : List String),
      (fireDue now pending color rlog).2.2
          ++ ((fireDue now pending color rlog).2.1).map Prod.snd
        = rlog ++ pending.map Prod.snd := by
  intro pending
  induction pending with
  | nil =>
    intro color rlog
    simp [fireDue]
  | cons hd tl ih =>
    intro color rlog
    unfold fireDue
    by_cases h : hd.1 ≤ now
    · rw [if_pos h, ih]
      simp
    · rw [if_neg h]

/-- Letting every remaining restore fire moves the whole queue of saved
colors to the restore log in order. -/
theorem fireAll_log :
    ∀ (pending : List (Nat × String)) (color : String) (rlog : List String),
      (fireAll pending color rlog).2 = rlog ++ pending.map Prod.snd := by
  intro pending
  induction pending with
  | nil =>
    intro color rlog
    simp [fireAll]
  | cons hd tl ih =>
    intro color rlog
    unfold fireAll
    rw [ih]
    simp

/-- Invariant of the flash timeline: the colors saved at flashes are
exactly the colors already written by fired restores followed by the
saved colors still queued, in order. -/
theorem flashRun_inv (ts : List Nat) :
    ∀ s : FlashRun,
      s.flashLog = s.restoreLog ++ s.pending.map Prod.snd →
      (ts.foldl (fun s t => flashAt t s) s).flashLog
        = (ts.foldl (fun s t => flashAt t s) s).restoreLog
            ++ ((ts.foldl (fun s t => flashAt t s) s).pending).map Prod.snd := by
  induction ts with
  | nil =>
    intro s h
    exact h
  | cons t ts ih =>
    intro s h
    rw [List.foldl_cons]
    apply ih
    unfold flashAt
    have hfd := fireDue_log t s.pending s.color s.restoreLog
    simp only [List.map_append, List.map_cons, List.map_nil]
    rw [h, ← List.append_assoc, hfd]

/-! ## Claim theorems -/

/-- C1: the claim says a dynamic body past height + bufferZone is removed
within one tick and never reappears.  In the source the afterUpdate handler
has its cullOffscreenBodies() call commented out (marked TEMPORARILY
DISABLED for debugging), so no tick ever removes any body: after any number
of ticks the body list is unchanged, and in particular a dynamic body at
y = 1101 with height 600 (threshold 1100) stays forever.  The second
conjunct evaluates the disabled cullOffscreenBodies itself, which would
have removed exactly that dynamic body while keeping the static one. -/
theorem culling_disabled_bodies_persist :
    (∀ (height : ℚ) (s : CullWorld) (n : Nat),
        ((afterUpdate height)^[n] s).bodies = s.bodies)
    ∧ cullOffscreenBodies 600 [⟨false, 1101⟩, ⟨true, 1101⟩] = [⟨true, 1101⟩] := by
  constructor
  · intro height s n
    induction n generalizing s with
    | zero => rfl
    | succ k ih =>
      rw [Function.iterate_succ_apply, ih, afterUpdate_bodies]
  · norm_num [cullOffscreenBodies, bufferZone, List.filter]

/-- C3: the claim says the engine gravity equals PHYSICS_CONFIG.gravity =
(0, 1) and the iteration counts equal the PHYSICS_CONFIG values.  The
Engine.create call in useMatter does read both iteration counts and the
sleeping flag from PHYSICS_CONFIG, but passes the compile-time literal
(0, 0.5) as gravity, so the engine gravity differs from the configured
(0, 1) that the configuration module documents as controlling the
engine. -/
theorem engine_gravity_hardcoded :
    engineCreateConfig.gravity = (0, 1/2)
    ∧ PHYSICS_CONFIG.gravity = (0, 1)
    ∧ engineCreateConfig.gravity ≠ PHYSICS_CONFIG.gravity
    ∧ engineCreateConfig.positionIterations = PHYSICS_CONFIG.positionIterations
    ∧ engineCreateConfig.velocityIterations = PHYSICS_CONFIG.velocityIterations
    ∧ engineCreateConfig.enableSleeping = PHYSICS_CONFIG.enableSleeping := by
  refine ⟨rfl, rfl, ?_, rfl, rfl, rfl⟩
  intro h
  have h2 : (1/2 : ℚ) = 1 := congrArg Prod.snd h
  norm_num at h2

/-- C6 counterexample: a configuration whose restitution 3/2 is outside
[0,1] is not rejected; initialization raises nothing and starts the runner
anyway, refuting rejection at configuration time and fail-closed. -/
theorem config_never_rejected_cex :
    1 < outOfRangeDefaults.restitution
    ∧ useMatterInit PHYSICS_CONFIG outOfRangeDefaults 800 600
        = { runnerStarted := true, raisedConfigurationError := false } := by
  constructor
  · norm_num [outOfRangeDefaults]
  · unfold useMatterInit
    rw [if_neg (by norm_num)]

/-- C6 amended: initialization performs no coefficient validation at all —
for every configuration, in range or not, no ConfigurationError is raised
and the runner is started (once both canvas dimensions are nonzero); the
shipped BODY_DEFAULTS coefficients happen to lie in range. -/
theorem init_never_validates (p : PhysicsConfig) (d : BodyDefaults) (w h : ℚ)
    (hw : w ≠ 0) (hh : h ≠ 0) :
    (useMatterInit p d w h).runnerStarted = true
    ∧ (useMatterInit p d w h).raisedConfigurationError = false
    ∧ 0 ≤ BODY_DEFAULTS.restitution ∧ BODY_DEFAULTS.restitution ≤ 1
    ∧ 0 < BODY_DEFAULTS.density := by
  unfold useMatterInit
  rw [if_neg (by tauto)]
  refine ⟨rfl, rfl, by norm_num [BODY_DEFAULTS], by norm_num [BODY_DEFAULTS],
    by norm_num [BODY_DEFAULTS]⟩

/-- Witness for the amended C6 theorem at the shipped configuration and a
800 by 600 canvas. -/
theorem init_never_validates_w :
    (800 : ℚ) ≠ 0 ∧ (600 : ℚ) ≠ 0
    ∧ (useMatterInit PHYSICS_CONFIG BODY_DEFAULTS 800 600).runnerStarted = true :=
  ⟨by simp, by simp,
    (init_never_validates PHYSICS_CONFIG BODY_DEFAULTS 800 600
      (by simp) (by simp)).1⟩

/-- C2 counterexample: the press-and-release-without-move gesture over a
dynamic body attaches the drag constraint (MouseConstraint attaches at
press unconditionally) AND applies the click impulse (the click handler
fires at release regardless of movement), so the two interactions are not
mutually exclusive and are not selected by gesture type. -/
theorem pointer_modes_cex :
    dragConstraintAttached ⟨some sampleDynamicBody, false⟩ = true
    ∧ clickImpulseApplied ⟨some sampleDynamicBody, false⟩ = true
    ∧ ¬ ((dragConstraintAttached ⟨some sampleDynamicBody, false⟩ = true
            ∧ clickImpulseApplied ⟨some sampleDynamicBody, false⟩ = false)
        ∨ (dragConstraintAttached ⟨some sampleDynamicBody, false⟩ = false
            ∧ clickImpulseApplied ⟨some sampleDynamicBody, false⟩ = true)) := by
  refine ⟨rfl, rfl, ?_⟩
  rintro (⟨h1, h2⟩ | ⟨h1, h2⟩) <;> simp [clickImpulseApplied, dragConstraintAttached,
    sampleDynamicBody] at h1 h2

/-- C2 amended: for every pointer gesture whose press hits a dynamic body,
both interactions occur — the drag constraint is attached at press and the
upward click impulse is applied at release — whether or not the pointer
moved in between. -/
theorem pointer_both_modes (g : Gesture) (b : Body) (hhit : g.hit = some b)
    (hdyn : b.isStatic = false) :
    dragConstraintAttached g = true ∧ clickImpulseApplied g = true := by
  unfold dragConstraintAttached clickImpulseApplied
  rw [hhit]
  exact ⟨rfl, by simp [hdyn]⟩

/-- Witness for the amended C2 theorem on a drag gesture over the sample
dynamic body. -/
theorem pointer_both_modes_w :
    dragConstraintAttached ⟨some sampleDynamicBody, true⟩ = true
    ∧ clickImpulseApplied ⟨some sampleDynamicBody, true⟩ = true :=
  pointer_both_modes ⟨some sampleDynamicBody, true⟩ sampleDynamicBody rfl rfl

/-- C10: for every spawn trigger with nonzero canvas dimensions and draws
in [0, 1), the batch adds N bodies to the world with 30 <= N <= 50
(N = floor(u * 21) + 30), and every spawned body sits at y = -50 with x in
[0, width). -/
theorem spawnBatch_bounds (uCount : ℚ) (xDraw vxDraw vyDraw : Nat → ℚ)
    (shapeDraw : Nat → Rnd) (width height : ℚ)
    (hc0 : 0 ≤ uCount) (hc1 : uCount < 1)
    (hx : ∀ i, 0 ≤ xDraw i ∧ xDraw i < 1)
    (hw : 0 < width) (hh : height ≠ 0) :
    30 ≤ (spawnBatch uCount xDraw vxDraw vyDraw shapeDraw width height).length
    ∧ (spawnBatch uCount xDraw vxDraw vyDraw shapeDraw width height).length ≤ 50
    ∧ ∀ b ∈ spawnBatch uCount xDraw vxDraw vyDraw shapeDraw width height,
        b.position.2 = -50 ∧ 0 ≤ b.position.1 ∧ b.position.1 < width := by
  have hne : ¬(width = 0 ∨ height = 0) := by
    push_neg
    exact ⟨ne_of_gt hw, hh⟩
  have hfloor : Int.toNat ⌊uCount * 21⌋ ≤ 20 := by
    have h1 : ⌊uCount * 21⌋ < 21 := by
      apply Int.floor_lt.mpr
      push_cast
      nlinarith
    omega
  unfold spawnBatch
  rw [if_neg hne]
  refine ⟨?_, ?_, ?_⟩
  · simp only [List.length_map, List.length_range]
    omega
  · simp only [List.length_map, List.length_range]
    omega
  · intro b hb
    simp only [List.mem_map, List.mem_range] at hb
    obtain ⟨i, _, rfl⟩ := hb
    rw [spawnOne_position]
    refine ⟨rfl, mul_nonneg (hx i).1 (le_of_lt hw), ?_⟩
    calc xDraw i * width < 1 * width := by
          exact mul_lt_mul_of_pos_right (hx i).2 hw
    _ = width := one_mul width

/-- Witness for the C10 theorem at the all-zero draws on a unit canvas:
exactly 30 bodies. -/
theorem spawnBatch_bounds_w :
    30 ≤ (spawnBatch 0 zeroDraws zeroDraws zeroDraws zeroRndFamily 1 1).length
    ∧ (spawnBatch 0 zeroDraws zeroDraws zeroDraws zeroRndFamily 1 1).length ≤ 50 :=
  ⟨(spawnBatch_bounds 0 zeroDraws zeroDraws zeroDraws zeroRndFamily 1 1
      le_rfl zero_lt_one (fun _ => ⟨le_rfl, zero_lt_one⟩) zero_lt_one one_ne_zero).1,
   (spawnBatch_bounds 0 zeroDraws zeroDraws zeroDraws zeroRndFamily 1 1
      le_rfl zero_lt_one (fun _ => ⟨le_rfl, zero_lt_one⟩) zero_lt_one one_ne_zero).2.1⟩

/-- C9: for all draws in [0, 1), createCircle returns a radius in [20, 50]
and createIrregularPolygon returns a vertex count in [4, 8), with exactly
that many vertices, each vertex sitting at distance baseRadius * j from the
center for some independent jitter j in [0.7, 1.3]. -/
theorem factory_size_bounds (rndC rndP : Rnd) (x y : ℚ)
    (hC0 : 0 ≤ rndC 0) (hC1 : rndC 0 < 1)
    (hP : ∀ n, 0 ≤ rndP n ∧ rndP n < 1) :
    ((createCircle rndC x y).shape = Shape.circle (randomInRange (rndC 0) 20 50)
      ∧ 20 ≤ randomInRange (rndC 0) 20 50
      ∧ randomInRange (rndC 0) 20 50 ≤ 50)
    ∧ (4 ≤ irregularVertexCount (rndP 0) ∧ irregularVertexCount (rndP 0) < 8)
    ∧ (createIrregularPolygon rndP x y).shape
        = Shape.fromVertices (irregularVertices (irregularVertexCount (rndP 0))
            (fun i => irregularRadius (randomInRange (rndP 1) 25 45) (rndP (2 + i))))
    ∧ (irregularVertices (irregularVertexCount (rndP 0))
        (fun i => irregularRadius (randomInRange (rndP 1) 25 45) (rndP (2 + i)))).length
        = irregularVertexCount (rndP 0)
    ∧ ∀ i, i < irregularVertexCount (rndP 0) →
        ∃ j : ℚ, 7/10 ≤ j ∧ j ≤ 13/10
          ∧ vlen ((irregularVertices (irregularVertexCount (rndP 0))
                (fun k => irregularRadius (randomInRange (rndP 1) 25 45) (rndP (2 + k)))).getD
                  i (0, 0))
            = ((randomInRange (rndP 1) 25 45 : ℚ) : ℝ) * ((j : ℚ) : ℝ) := by
  refine ⟨⟨rfl, ?_, ?_⟩, ⟨?_, ?_⟩, rfl, ?_, ?_⟩
  · unfold randomInRange
    nlinarith
  · unfold randomInRange
    nlinarith
  · unfold irregularVertexCount
    have h1 : (4 : ℤ) ≤ ⌊randomInRange (rndP 0) 4 8⌋ := by
      apply Int.le_floor.mpr
      unfold randomInRange
      push_cast
      nlinarith [(hP 0).1]
    omega
  · unfold irregularVertexCount
    have h2 : ⌊randomInRange (rndP 0) 4 8⌋ < 8 := by
      apply Int.floor_lt.mpr
      unfold randomInRange
      push_cast
      nlinarith [(hP 0).2]
    omega
  · simp [irregularVertices]
  · intro i hi
    refine ⟨randomInRange (rndP (2 + i)) (7/10) (13/10), ?_, ?_, ?_⟩
    · unfold randomInRange
      nlinarith [(hP (2 + i)).1]
    · unfold randomInRange
      nlinarith [(hP (2 + i)).2]
    · have hbase : (0 : ℚ) ≤ randomInRange (rndP 1) 25 45 := by
        unfold randomInRange
        nlinarith [(hP 1).1]
      have hj : (0 : ℚ) ≤ randomInRange (rndP (2 + i)) (7/10) (13/10) := by
        unfold randomInRange
        nlinarith [(hP (2 + i)).1]
      have hlen : i < (irregularVertices (irregularVertexCount (rndP 0))
          (fun k => irregularRadius (randomInRange (rndP 1) 25 45) (rndP (2 + k)))).length := by
        simpa [irregularVertices] using hi
      rw [List.getD_eq_getElem _ _ hlen]
      have hr : (0 : ℝ) ≤
          ((irregularRadius (randomInRange (rndP 1) 25 45) (rndP (2 + i)) : ℚ) : ℝ) := by
        unfold irregularRadius
        exact_mod_cast mul_nonneg hbase hj
      simp only [irregularVertices, List.getElem_map, List.getElem_range]
      rw [vlen_polar _ _ hr]
      unfold irregularRadius
      push_cast
      ring

/-- C5: the collision handler only rewrites the render fill of the
non-static members of each pair — shape, position, angle, velocity and
every physical coefficient are untouched, and a static body is wholly
unchanged — and under every schedule of (possibly overlapping) collision
flashes, each delayed restore writes back exactly the fill color the body
had immediately before its flash: the restore log of a full timeline
equals the flash log, and no restore is left pending. -/
theorem collision_flash_cosmetic :
    (∀ a b : Body, handleCollisionPair a b = (flashIfDynamic a, flashIfDynamic b))
    ∧ (∀ b : Body,
        (flashIfDynamic b).shape = b.shape
        ∧ (flashIfDynamic b).position = b.position
        ∧ (flashIfDynamic b).angle = b.angle
        ∧ (flashIfDynamic b).velocity = b.velocity
        ∧ (flashIfDynamic b).restitution = b.restitution
        ∧ (flashIfDynamic b).friction = b.friction
        ∧ (flashIfDynamic b).frictionAir = b.frictionAir
        ∧ (flashIfDynamic b).density = b.density
        ∧ (flashIfDynamic b).isStatic = b.isStatic)
    ∧ (∀ b : Body, b.isStatic = true → flashIfDynamic b = b)
    ∧ (∀ b : Body, b.isStatic = false → (flashIfDynamic b).fillStyle = flashColor)
    ∧ (∀ (c0 : String) (ts : List Nat),
        (runSchedule c0 ts).restoreLog = (runSchedule c0 ts).flashLog
        ∧ (runSchedule c0 ts).pending = []) := by
  refine ⟨fun a b => rfl, ?_, ?_, ?_, ?_⟩
  · intro b
    unfold flashIfDynamic
    by_cases h : b.isStatic <;> simp [h]
  · intro b h
    unfold flashIfDynamic
    rw [if_pos h]
  · intro b h
    unfold flashIfDynamic
    rw [if_neg (by simp [h])]
  · intro c0 ts
    constructor
    · show (fireAll (ts.foldl (fun s t => flashAt t s) ⟨c0, [], [], []⟩).pending
            (ts.foldl (fun s t => flashAt t s) ⟨c0, [], [], []⟩).color
            (ts.foldl (fun s t => flashAt t s) ⟨c0, [], [], []⟩).restoreLog).2
          = (ts.foldl (fun s t => flashAt t s) ⟨c0, [], [], []⟩).flashLog
      rw [fireAll_log]
      exact (flashRun_inv ts ⟨c0, [], [], []⟩ rfl).symm
    · rfl

/-- Witness for the C5 theorem: the static floor is wholly unchanged by a
flash, and a two-flash overlapping schedule at instants 0 and 50 restores
each saved color. -/
theorem collision_flash_cosmetic_w :
    flashIfDynamic sampleStaticBody = sampleStaticBody
    ∧ (runSchedule "#00FFFF" [0, 50]).restoreLog
        = (runSchedule "#00FFFF" [0, 50]).flashLog :=
  ⟨collision_flash_cosmetic.2.2.1 sampleStaticBody rfl,
   (collision_flash_cosmetic.2.2.2.2 "#00FFFF" [0, 50]).1⟩

/-- C7: with no kind specified and the selection draw u in [0, 1), the
factory registry has 9 entries, createRandomShape returns exactly
SHAPE_FACTORIES[floor(u * 9)] applied to the position (with the remaining
draws), each registry index is selected on an equal-length subinterval
[i/n, (i+1)/n) of [0, 1), and the same selection logic stays uniform over
any registry extended with one more constructor (so adding a kind needs
only registration). -/
theorem createRandomShape_uniform (rnd : Rnd) (x y : ℚ)
    (h0 : 0 ≤ rnd 0) (h1 : rnd 0 < 1) :
    SHAPE_FACTORIES.length = 9
    ∧ (∃ h : Int.toNat ⌊rnd 0 * (SHAPE_FACTORIES.length : ℚ)⌋ < SHAPE_FACTORIES.length,
        createRandomShape rnd x y
          = (SHAPE_FACTORIES.get
              ⟨Int.toNat ⌊rnd 0 * (SHAPE_FACTORIES.length : ℚ)⌋, h⟩)
              (fun n => rnd (n + 1)) x y)
    ∧ (∀ i, i < SHAPE_FACTORIES.length →
        (Int.toNat ⌊rnd 0 * (SHAPE_FACTORIES.length : ℚ)⌋ = i ↔
          ((i : ℚ) / (SHAPE_FACTORIES.length : ℚ) ≤ rnd 0
            ∧ rnd 0 < ((i : ℚ) + 1) / (SHAPE_FACTORIES.length : ℚ))))
    ∧ (∀ (fs : List ShapeFactory) (g : ShapeFactory) (u : ℚ),
        0 ≤ u → u < 1 → ∀ i, i < (fs ++ [g]).length →
          (Int.toNat ⌊u * (((fs ++ [g]).length : ℕ) : ℚ)⌋ = i ↔
            ((i : ℚ) / (((fs ++ [g]).length : ℕ) : ℚ) ≤ u
              ∧ u < ((i : ℚ) + 1) / (((fs ++ [g]).length : ℕ) : ℚ)))) := by
  have hb : Int.toNat ⌊rnd 0 * (SHAPE_FACTORIES.length : ℚ)⌋ < SHAPE_FACTORIES.length :=
    toNat_floor_unit_mul_lt (rnd 0) SHAPE_FACTORIES.length (by norm_num [SHAPE_FACTORIES])
      h0 h1
  refine ⟨rfl, ⟨hb, ?_⟩, ?_, ?_⟩
  · unfold createRandomShape
    rw [List.getD_eq_getElem _ _ hb]
    rfl
  · intro i hi
    exact toNat_floor_unit_mul_eq_iff (rnd 0) SHAPE_FACTORIES.length i h0 h1 hi
  · intro fs g u hu0 hu1 i hi
    exact toNat_floor_unit_mul_eq_iff u (fs ++ [g]).length i hu0 hu1 hi

/-- Witness for the C7 theorem at the draw 1/2: the registry has 9 entries
and index 4 is selected exactly on [4/9, 5/9). -/
theorem createRandomShape_uniform_w :
    SHAPE_FACTORIES.length = 9
    ∧ (Int.toNat ⌊halfDraws 0 * (SHAPE_FACTORIES.length : ℚ)⌋ = 4 ↔
        ((4 : ℚ) / (SHAPE_FACTORIES.length : ℚ) ≤ halfDraws 0
          ∧ halfDraws 0 < ((4 : ℚ) + 1) / (SHAPE_FACTORIES.length : ℚ))) :=
  ⟨(createRandomShape_uniform halfDraws 0 0 one_half_pos.le one_half_lt_one).1,
   (createRandomShape_uniform halfDraws 0 0 one_half_pos.le one_half_lt_one).2.2.1 4
     (by norm_num [SHAPE_FACTORIES])⟩

/-- C8: createStar(x, y, points) generates exactly 2 * points vertices, at
equally spaced angles of step 2 pi / (2 points) starting from the top (the
first vertex sits at angle -pi/2, i.e. straight up on the canvas, at
(0, -outerRadius)), the radius alternating between the outer radius at
even indices and the inner radius (0.4 of the outer) at odd indices; each
vertex really lies at that alternating distance from the center. -/
theorem createStar_spec (rnd : Rnd) (x y : ℚ) (points : Nat)
    (hp : 0 < points) (h0 : 0 ≤ rnd 0) (h1 : rnd 0 < 1) :
    (createStar rnd x y points).shape
      = Shape.fromVertices (starVertices points (randomInRange (rnd 0) 30 50))
    ∧ (starVertices points (randomInRange (rnd 0) 30 50)).length = 2 * points
    ∧ (starVertices points (randomInRange (rnd 0) 30 50)).getD 0 (0, 0)
        = (0, -((randomInRange (rnd 0) 30 50 : ℚ) : ℝ))
    ∧ (∀ i, i < 2 * points →
        (starVertices points (randomInRange (rnd 0) 30 50)).getD i (0, 0)
          = (Real.cos (-(Real.pi / 2) + (i : ℝ) * (2 * Real.pi / ((2 : ℝ) * (points : ℝ))))
              * (if i % 2 = 0 then ((randomInRange (rnd 0) 30 50 : ℚ) : ℝ)
                  else ((randomInRange (rnd 0) 30 50 : ℚ) : ℝ) * (2 / 5)),
             Real.sin (-(Real.pi / 2) + (i : ℝ) * (2 * Real.pi / ((2 : ℝ) * (points : ℝ))))
              * (if i % 2 = 0 then ((randomInRange (rnd 0) 30 50 : ℚ) : ℝ)
                  else ((randomInRange (rnd 0) 30 50 : ℚ) : ℝ) * (2 / 5))))
    ∧ (∀ i, i < 2 * points →
        vlen ((starVertices points (randomInRange (rnd 0) 30 50)).getD i (0, 0))
          = (if i % 2 = 0 then ((randomInRange (rnd 0) 30 50 : ℚ) : ℝ)
              else ((randomInRange (rnd 0) 30 50 : ℚ) : ℝ) * (2 / 5)))
    ∧ 30 ≤ randomInRange (rnd 0) 30 50 ∧ randomInRange (rnd 0) 30 50 ≤ 50 := by
  have houtlo : (30 : ℚ) ≤ randomInRange (rnd 0) 30 50 := by
    unfold randomInRange
    nlinarith
  have houthi : randomInRange (rnd 0) 30 50 ≤ 50 := by
    unfold randomInRange
    nlinarith
  have hlen : (starVertices points (randomInRange (rnd 0) 30 50)).length = 2 * points := by
    unfold starVertices
    rw [List.length_map, List.length_range, Nat.mul_comm]
  have hget : ∀ i, i < 2 * points →
      (starVertices points (randomInRange (rnd 0) 30 50)).getD i (0, 0)
        = (Real.cos (-(Real.pi / 2) + (i : ℝ) * (2 * Real.pi / ((2 : ℝ) * (points : ℝ))))
            * (if i % 2 = 0 then ((randomInRange (rnd 0) 30 50 : ℚ) : ℝ)
                else ((randomInRange (rnd 0) 30 50 : ℚ) : ℝ) * (2 / 5)),
           Real.sin (-(Real.pi / 2) + (i : ℝ) * (2 * Real.pi / ((2 : ℝ) * (points : ℝ))))
            * (if i % 2 = 0 then ((randomInRange (rnd 0) 30 50 : ℚ) : ℝ)
                else ((randomInRange (rnd 0) 30 50 : ℚ) : ℝ) * (2 / 5))) := by
    intro i hi
    have hlt : i < (starVertices points (randomInRange (rnd 0) 30 50)).length := by
      rw [hlen]
      exact hi
    rw [List.getD_eq_getElem _ _ hlt]
    simp only [starVertices, List.getElem_map, List.getElem_range]
    unfold starVertexAt
    have hangle : (i : ℝ) * (Real.pi * 2 / ((points : ℝ) * 2)) - Real.pi / 2
        = -(Real.pi / 2) + (i : ℝ) * (2 * Real.pi / ((2 : ℝ) * (points : ℝ))) := by
      ring
    rw [hangle, Prod.mk.injEq]
    constructor <;> split_ifs <;> push_cast <;> ring
  refine ⟨rfl, hlen, ?_, hget, ?_, houtlo, houthi⟩
  · rw [hget 0 (by omega)]
    simp [Real.cos_pi_div_two, Real.sin_pi_div_two, Prod.mk.injEq]
  · intro i hi
    rw [hget i hi]
    apply vlen_polar
    have hout : (0 : ℝ) ≤ ((randomInRange (rnd 0) 30 50 : ℚ) : ℝ) := by
      have : (0 : ℚ) ≤ randomInRange (rnd 0) 30 50 := by linarith
      exact_mod_cast this
    split_ifs
    · exact hout
    · nlinarith

/-- Witness for the C8 theorem: a 5-point star from the all-zero draws has
10 vertices and outer radius at least 30. -/
theorem createStar_spec_w :
    (starVertices 5 (randomInRange (zeroDraws 0) 30 50)).length = 2 * 5
    ∧ 30 ≤ randomInRange (zeroDraws 0) 30 50 :=
  ⟨(createStar_spec zeroDraws 0 0 5 (Nat.succ_pos 4) le_rfl zero_lt_one).2.1,
   (createStar_spec zeroDraws 0 0 5 (Nat.succ_pos 4) le_rfl zero_lt_one).2.2.2.2.2.1⟩

/-- C4: the claim says each drawn point coincides with the world-space
point, a polygon with angle theta being drawn rotated by exactly theta.
The render loop rotates the canvas by the body angle and then draws the
already world-rotated Matter vertices shifted by the position, so every
world vertex lands at position + rot(theta)(v - position): the drawn
polygon is the local ring rotated by theta + theta, not theta.  At angle pi
a body with local vertex (1, 0) at the origin has world vertex (-1, 0) but
is drawn at (1, 0). -/
theorem renderer_double_rotation :
    (∀ (p : ℝ × ℝ) (theta : ℝ) (locals : List (ℝ × ℝ)),
        renderedPolygonPoints p theta (worldVertices p theta locals)
          = worldVertices p (theta + theta) locals)
    ∧ worldVertices (0, 0) Real.pi [(1, 0)] = [(-1, 0)]
    ∧ renderedPolygonPoints (0, 0) Real.pi (worldVertices (0, 0) Real.pi [(1, 0)])
        = [(1, 0)]
    ∧ renderedPolygonPoints (0, 0) Real.pi (worldVertices (0, 0) Real.pi [(1, 0)])
        ≠ worldVertices (0, 0) Real.pi [(1, 0)] := by
  have hgen : ∀ (p : ℝ × ℝ) (theta : ℝ) (locals : List (ℝ × ℝ)),
      renderedPolygonPoints p theta (worldVertices p theta locals)
        = worldVertices p (theta + theta) locals := by
    intro p theta locals
    unfold renderedPolygonPoints worldVertices
    rw [List.map_map]
    apply List.map_congr_left
    intro v _
    show (p.1 + (rot theta (p.1 + (rot theta v).1 - p.1, p.2 + (rot theta v).2 - p.2)).1,
          p.2 + (rot theta (p.1 + (rot theta v).1 - p.1, p.2 + (rot theta v).2 - p.2)).2)
        = (p.1 + (rot (theta + theta) v).1, p.2 + (rot (theta + theta) v).2)
    have hv : (p.1 + (rot theta v).1 - p.1, p.2 + (rot theta v).2 - p.2) = rot theta v := by
      rw [Prod.mk.injEq]
      constructor <;> ring
    rw [hv, rot_rot]
  have hworld : worldVertices (0, 0) Real.pi [(1, 0)] = [(-1, 0)] := by
    unfold worldVertices rot
    simp [Real.cos_pi, Real.sin_pi]
  have hdrawn : renderedPolygonPoints (0, 0) Real.pi (worldVertices (0, 0) Real.pi [(1, 0)])
      = [(1, 0)] := by
    rw [hworld]
    unfold renderedPolygonPoints rot
    simp [Real.cos_pi, Real.sin_pi]
  refine ⟨hgen, hworld, hdrawn, ?_⟩
  rw [hdrawn, hworld]
  intro h
  have h1 : ((1 : ℝ), (0 : ℝ)) = ((-1 : ℝ), (0 : ℝ)) := by
    exact List.head_eq_of_cons_eq h
  have h2 : (1 : ℝ) = -1 := congrArg Prod.fst h1
  norm_num at h2

/-- Witness for the C9 theorem at the all-zero draws: circle radius 20,
irregular polygon with 4 vertices. -/
theorem factory_size_bounds_w :
    20 ≤ randomInRange (zeroDraws 0) 20 50
    ∧ 4 ≤ irregularVertexCount (zeroDraws 0)
    ∧ irregularVertexCount (zeroDraws 0) < 8 :=
  ⟨(factory_size_bounds zeroDraws zeroDraws 0 0 le_rfl zero_lt_one
      (fun _ => ⟨le_rfl, zero_lt_one⟩)).1.2.1,
   (factory_size_bounds zeroDraws zeroDraws 0 0 le_rfl zero_lt_one
      (fun _ => ⟨le_rfl, zero_lt_one⟩)).2.1.1,
   (factory_size_bounds zeroDraws zeroDraws 0 0 le_rfl zero_lt_one
      (fun _ => ⟨le_rfl, zero_lt_one⟩)).2.1.2⟩

end Phys
